import Mathlib

/-!
Shallow embedding of the statistics core of the `statistical-webapp-dify`
repository (files `src/utils/statistics.ts` and `src/utils/distributions.ts`).

JavaScript numbers are modelled by `JSNum`: a finite real, one of the two
infinities, or NaN.  Rounding of IEEE doubles is abstracted away (finite
values are exact reals), but the non-finite values and their propagation
through the arithmetic operators used by the source are modelled explicitly,
because the behaviour of the code on empty samples, on `n = 1` samples and on
a uniform draw of exactly `0` produces NaN and infinities.  Signed zero is
not modelled; the only place its sign could matter in the translated code is
the sign of an infinity that is subsequently multiplied by NaN, which yields
NaN either way.
-/

namespace StatWebapp

noncomputable section

/-- A JavaScript number: a finite real, `+Infinity`, `-Infinity`, or `NaN`. -/
inductive JSNum where
  | fin : ℝ → JSNum
  | posInf : JSNum
  | negInf : JSNum
  | nan : JSNum

open JSNum

/-- JavaScript `+` on numbers. -/
def jsAdd : JSNum → JSNum → JSNum
  | nan, _ => nan
  | _, nan => nan
  | fin a, fin b => fin (a + b)
  | posInf, negInf => nan
  | negInf, posInf => nan
  | posInf, _ => posInf
  | _, posInf => posInf
  | negInf, _ => negInf
  | _, negInf => negInf

/-- JavaScript unary `-` on numbers. -/
def jsNeg : JSNum → JSNum
  | fin a => fin (-a)
  | posInf => negInf
  | negInf => posInf
  | nan => nan

/-- JavaScript binary `-` on numbers. -/
def jsSub : JSNum → JSNum → JSNum
  | nan, _ => nan
  | _, nan => nan
  | fin a, fin b => fin (a - b)
  | posInf, posInf => nan
  | negInf, negInf => nan
  | posInf, _ => posInf
  | _, posInf => negInf
  | negInf, _ => negInf
  | _, negInf => posInf

/-- JavaScript `*` on numbers (`Infinity * 0 = NaN`). -/
def jsMul : JSNum → JSNum → JSNum
  | nan, _ => nan
  | _, nan => nan
  | fin a, fin b => fin (a * b)
  | posInf, posInf => posInf
  | posInf, negInf => negInf
  | negInf, posInf => negInf
  | negInf, negInf => posInf
  | posInf, fin b => if 0 < b then posInf else if b < 0 then negInf else nan
  | fin a, posInf => if 0 < a then posInf else if a < 0 then negInf else nan
  | negInf, fin b => if 0 < b then negInf else if b < 0 then posInf else nan
  | fin a, negInf => if 0 < a then negInf else if a < 0 then posInf else nan

/-- JavaScript `/` on numbers.  Division of a nonzero finite value by zero
yields an infinity whose sign is taken from the numerator (signed zero is not
modelled); `0 / 0` and `Infinity / Infinity` yield NaN. -/
def jsDiv : JSNum → JSNum → JSNum
  | nan, _ => nan
  | _, nan => nan
  | fin a, fin b =>
      if b = 0 then (if a = 0 then nan else if 0 < a then posInf else negInf)
      else fin (a / b)
  | fin _, posInf => fin 0
  | fin _, negInf => fin 0
  | posInf, fin b => if 0 ≤ b then posInf else negInf
  | negInf, fin b => if 0 ≤ b then negInf else posInf
  | posInf, posInf => nan
  | posInf, negInf => nan
  | negInf, posInf => nan
  | negInf, negInf => nan

/-- JavaScript `Math.pow` restricted to natural-number exponents (the source
only uses the literal exponents 2, 3 and 4). -/
def jsPow (x : JSNum) (k : ℕ) : JSNum :=
  match x with
  | fin a => fin (a ^ k)
  | nan => if k = 0 then fin 1 else nan
  | posInf => if k = 0 then fin 1 else posInf
  | negInf => if k = 0 then fin 1 else if k % 2 = 1 then negInf else posInf

/-- JavaScript `Math.sqrt` (negative argument or NaN gives NaN). -/
def jsSqrt : JSNum → JSNum
  | fin a => if 0 ≤ a then fin (Real.sqrt a) else nan
  | posInf => posInf
  | negInf => nan
  | nan => nan

/-- JavaScript `Math.log` (`log 0 = -Infinity`, negative argument gives NaN). -/
def jsLog : JSNum → JSNum
  | fin a => if 0 < a then fin (Real.log a) else if a = 0 then negInf else nan
  | posInf => posInf
  | negInf => nan
  | nan => nan

/-- JavaScript `Math.exp`. -/
def jsExp : JSNum → JSNum
  | fin a => fin (Real.exp a)
  | posInf => posInf
  | negInf => fin 0
  | nan => nan

/-- JavaScript `Math.cos` (non-finite argument gives NaN). -/
def jsCos : JSNum → JSNum
  | fin a => fin (Real.cos a)
  | _ => nan

/-- JavaScript `Math.round` (half away from zero upwards, `⌊x + 1/2⌋`,
matching Mathlib's `round`). -/
def jsRound : JSNum → JSNum
  | fin a => fin ((round a : ℤ) : ℝ)
  | posInf => posInf
  | negInf => negInf
  | nan => nan

/-- JavaScript `Math.min` of two numbers (NaN-propagating). -/
def jsMin2 : JSNum → JSNum → JSNum
  | nan, _ => nan
  | _, nan => nan
  | negInf, _ => negInf
  | _, negInf => negInf
  | posInf, b => b
  | a, posInf => a
  | fin a, fin b => fin (min a b)

/-- JavaScript `Math.max` of two numbers (NaN-propagating). -/
def jsMax2 : JSNum → JSNum → JSNum
  | nan, _ => nan
  | _, nan => nan
  | posInf, _ => posInf
  | _, posInf => posInf
  | negInf, b => b
  | a, negInf => a
  | fin a, fin b => fin (max a b)

/-- JavaScript `<` on numbers (any comparison with NaN is false). -/
def jsLtB : JSNum → JSNum → Bool
  | fin x, fin y => decide (x < y)
  | nan, _ => false
  | _, nan => false
  | negInf, negInf => false
  | negInf, _ => true
  | _, negInf => false
  | posInf, _ => false
  | fin _, posInf => true

/-- JavaScript `>` on numbers. -/
def jsGtB (a b : JSNum) : Bool := jsLtB b a

/-- Ordering used to model `[...data].sort((a, b) => a - b)`.  On finite
values it is the real ordering; the comparator's behaviour when the
subtraction yields NaN is implementation-defined in JS, and here NaN and
equal elements keep their relative order (the sort is stable). -/
def jsLeB : JSNum → JSNum → Bool
  | fin x, fin y => decide (x ≤ y)
  | nan, _ => true
  | _, nan => true
  | negInf, _ => true
  | _, negInf => false
  | _, posInf => true
  | posInf, _ => false

/-- Insertion step of the stable insertion sort modelling `Array.prototype.sort`. -/
def insertJS (a : JSNum) : List JSNum → List JSNum
  | [] => [a]
  | b :: l => if jsLeB a b then a :: b :: l else b :: insertJS a l

/-- `[...data].sort((a, b) => a - b)`: stable sort by numeric value. -/
def sortJS (l : List JSNum) : List JSNum := l.foldr insertJS []

/-- `v` is a finite number. -/
def isFin (v : JSNum) : Prop := ∃ x : ℝ, v = fin x

/-! ## `src/utils/statistics.ts` -/

/-- Classical equality test on JavaScript numbers, used to model object-key
grouping in the mode computation (JS object keys collapse all NaNs to the
single key `"NaN"`, matching the single `nan` value here). -/
instance : DecidableEq JSNum := fun a b => Classical.dec (a = b)

/-- The `method` tag of the TS `EstimationResult` (string union `'MLE' | 'MoM'`). -/
inductive Method where
  | MLE : Method
  | MoM : Method

/-- The inline `quartiles` record of the TS `SummaryStatistics` interface. -/
structure Quartiles where
  q1 : JSNum
  q2 : JSNum
  q3 : JSNum

/-- The TS `SummaryStatistics` interface. -/
structure SummaryStatistics where
  mean : JSNum
  median : JSNum
  mode : Option JSNum
  variance : JSNum
  standardDeviation : JSNum
  min : JSNum
  max : JSNum
  range : JSNum
  quartiles : Quartiles
  interquartileRange : JSNum
  skewness : JSNum
  kurtosis : JSNum

/-- The TS `EstimationResult` interface.  The source functions always set
`logLikelihood`, so the optional field is modelled as a plain value. -/
structure EstimationResult where
  method : Method
  estimatedParams : List (String × JSNum)
  logLikelihood : JSNum

/-- Property read `params[key]` on a string-keyed record; a missing key is
JS `undefined`, which behaves as NaN in the arithmetic that consumes it. -/
def lookupD (ps : List (String × JSNum)) (key : String) : JSNum :=
  ((ps.find? (fun p => p.1 == key)).map Prod.snd).getD nan

/-- Array access `l[k]` for a natural index (out of range gives `undefined`,
which behaves as NaN downstream). -/
def getNat : List JSNum → ℕ → JSNum
  | [], _ => nan
  | a :: _, 0 => a
  | _ :: l, Nat.succ k => getNat l k

/-- Array access `l[i]` for an integer index (negative or out of range gives
`undefined`, which behaves as NaN downstream). -/
def getIdxInt (l : List JSNum) (i : ℤ) : JSNum :=
  if 0 ≤ i then getNat l i.toNat else nan

/-- `calculatePercentile(sorted, percentile)`: linear-interpolation
percentile.  The percentile argument (only ever the literals 25, 50, 75) and
the fractional index are carried as rationals so that the source's
`Number.isInteger` test is the exact integrality test. -/
def calculatePercentile (sorted : List JSNum) (percentile : ℚ) : JSNum :=
  let n := sorted.length
  let index : ℚ := (percentile / 100) * ((n : ℚ) - 1)
  if index.den = 1 then
    getIdxInt sorted index.num
  else
    let lower : ℤ := ⌊index⌋
    let upper : ℤ := ⌈index⌉
    let weight : ℚ := index - (lower : ℚ)
    jsAdd (jsMul (getIdxInt sorted lower) (fin ((1 - weight : ℚ) : ℝ)))
      (jsMul (getIdxInt sorted upper) (fin ((weight : ℚ) : ℝ)))

/-- `calculateSkewness(data, mean, stdDev)`. -/
def calculateSkewness (data : List JSNum) (mean stdDev : JSNum) : JSNum :=
  let n := data.length
  let sum := data.foldl (fun s x => jsAdd s (jsPow (jsDiv (jsSub x mean) stdDev) 3)) (fin 0)
  jsMul (jsDiv (fin (n : ℝ)) (fin (((n : ℝ) - 1) * ((n : ℝ) - 2)))) sum

/-- `calculateKurtosis(data, mean, stdDev)`. -/
def calculateKurtosis (data : List JSNum) (mean stdDev : JSNum) : JSNum :=
  let n := data.length
  let sum := data.foldl (fun s x => jsAdd s (jsPow (jsDiv (jsSub x mean) stdDev) 4)) (fin 0)
  jsSub
    (jsMul (jsDiv (fin ((n : ℝ) * ((n : ℝ) + 1)))
      (fin (((n : ℝ) - 1) * ((n : ℝ) - 2) * ((n : ℝ) - 3)))) sum)
    (jsDiv (fin (3 * ((n : ℝ) - 1) ^ 2)) (fin (((n : ℝ) - 2) * ((n : ℝ) - 3))))

/-- `Math.round(x * 100) / 100`: rounding to two decimals for the mode keys. -/
def roundTo2 (x : JSNum) : JSNum := jsDiv (jsRound (jsMul x (fin 100))) (fin 100)

/-- Keys of the `frequency` record in first-occurrence order.  (JS orders
integer-like keys ascending before other keys; the claims under verification
never observe the key order, so insertion order is used.) -/
def distinctKeys (l : List JSNum) : List JSNum :=
  l.foldl (fun acc x => if x ∈ acc then acc else acc ++ [x]) []

/-- The mode computation of `calculateSummaryStats`: group values rounded to
2 decimals by frequency; if the maximal frequency is 1 the mode is `null`. -/
def modeJS (data : List JSNum) : Option JSNum :=
  let rounded := data.map roundTo2
  let keys := distinctKeys rounded
  let maxFreq := (keys.map (fun k => rounded.count k)).foldl Nat.max 0
  if maxFreq > 1 then
    some ((keys.find? (fun k => rounded.count k == maxFreq)).getD (fin 0))
  else
    none

/-- `calculateSummaryStats(data)`. -/
def calculateSummaryStats (data : List JSNum) : SummaryStatistics :=
  let sorted := sortJS data
  let n := data.length
  let mean := jsDiv (data.foldl jsAdd (fin 0)) (fin (n : ℝ))
  let variance := jsDiv (data.foldl (fun s x => jsAdd s (jsPow (jsSub x mean) 2)) (fin 0))
    (fin ((n : ℝ) - 1))
  let standardDeviation := jsSqrt variance
  let median := calculatePercentile sorted 50
  let q1 := calculatePercentile sorted 25
  let q3 := calculatePercentile sorted 75
  { mean := mean
    median := median
    mode := modeJS data
    variance := variance
    standardDeviation := standardDeviation
    min := getNat sorted 0
    max := getNat sorted (n - 1)
    range := jsSub (getNat sorted (n - 1)) (getNat sorted 0)
    quartiles := ⟨q1, median, q3⟩
    interquartileRange := jsSub q3 q1
    skewness := calculateSkewness data mean standardDeviation
    kurtosis := calculateKurtosis data mean standardDeviation }

/-- `calculateLogLikelihood(data, distribution, params)`: only the normal and
exponential likelihoods are implemented; every other family falls through to
the default branch `logLikelihood = -Infinity`. -/
def calculateLogLikelihood (data : List JSNum) (distribution : String)
    (params : List (String × JSNum)) : JSNum :=
  match distribution with
  | "normal" =>
      let mean := lookupD params "mean"
      let stdDev := lookupD params "stdDev"
      data.foldl (fun ll x =>
        jsAdd ll (jsSub
          (jsMul (fin (-0.5)) (jsLog (jsMul (jsMul (jsMul (fin 2) (fin Real.pi)) stdDev) stdDev)))
          (jsMul (fin 0.5) (jsPow (jsDiv (jsSub x mean) stdDev) 2)))) (fin 0)
  | "exponential" =>
      let lambda := lookupD params "lambda"
      data.foldl (fun ll x => jsAdd ll (jsSub (jsLog lambda) (jsMul lambda x))) (fin 0)
  | _ => negInf

/-- `estimateMLE(data, distribution, initialParams)`.  The `initialParams`
argument is accepted and ignored, as in the source. -/
def estimateMLE (data : List JSNum) (distribution : String)
    (initialParams : List (String × JSNum)) : EstimationResult :=
  let n := data.length
  let mean := jsDiv (data.foldl jsAdd (fin 0)) (fin (n : ℝ))
  let variance := jsDiv (data.foldl (fun s x => jsAdd s (jsPow (jsSub x mean) 2)) (fin 0))
    (fin (n : ℝ))
  let estimatedParams : List (String × JSNum) :=
    match distribution with
    | "normal" => [("mean", mean), ("stdDev", jsSqrt variance)]
    | "exponential" => [("lambda", jsDiv (fin 1) mean)]
    | "poisson" => [("lambda", mean)]
    | "uniform" => [("min", data.foldl jsMin2 posInf), ("max", data.foldl jsMax2 negInf)]
    | "binomial" =>
        [("n", jsAdd (data.foldl jsMax2 negInf) (fin 1)),
         ("p", jsDiv mean (jsAdd (data.foldl jsMax2 negInf) (fin 1)))]
    | _ => []
  { method := Method.MLE
    estimatedParams := estimatedParams
    logLikelihood := calculateLogLikelihood data distribution estimatedParams }

/-- `estimateMoM(data, distribution, initialParams)`. -/
def estimateMoM (data : List JSNum) (distribution : String)
    (initialParams : List (String × JSNum)) : EstimationResult :=
  let n := data.length
  let mean := jsDiv (data.foldl jsAdd (fin 0)) (fin (n : ℝ))
  let variance := jsDiv (data.foldl (fun s x => jsAdd s (jsPow (jsSub x mean) 2)) (fin 0))
    (fin (n : ℝ))
  let estimatedParams : List (String × JSNum) :=
    match distribution with
    | "normal" => [("mean", mean), ("stdDev", jsSqrt variance)]
    | "exponential" => [("lambda", jsDiv (fin 1) mean)]
    | "poisson" => [("lambda", mean)]
    | "uniform" =>
        let stdDev := jsSqrt variance
        [("min", jsSub mean (jsMul (jsSqrt (fin 3)) stdDev)),
         ("max", jsAdd mean (jsMul (jsSqrt (fin 3)) stdDev))]
    | "binomial" =>
        let p := jsSub (fin 1) (jsDiv variance mean)
        let n_est := jsDiv mean p
        [("n", jsRound n_est), ("p", jsMax2 (fin 0.01) (jsMin2 (fin 0.99) p))]
    | _ => []
  { method := Method.MoM
    estimatedParams := estimatedParams
    logLikelihood := calculateLogLikelihood data distribution estimatedParams }

/-! ## `src/utils/distributions.ts` -/

/-- The TS `DistributionType` string union. -/
inductive DistributionType where
  | normal : DistributionType
  | exponential : DistributionType
  | binomial : DistributionType
  | poisson : DistributionType
  | uniform : DistributionType

/-- One variant of the TS `DistributionParams` family of parameter records.
The binomial trial count `n` is a natural number (the `for (j < n)` loop of
the source runs an integral number of times).  Parameter values are finite
reals, as supplied by the UI. -/
inductive DistParams where
  | normal (mean stdDev : ℝ) : DistParams
  | exponential (lambda : ℝ) : DistParams
  | binomial (n : ℕ) (p : ℝ) : DistParams
  | poisson (lambda : ℝ) : DistParams
  | uniform (min max : ℝ) : DistParams

/-- One step of the seeded linear congruential generator:
`currentSeed = (currentSeed * 1664525 + 1013904223) % 4294967296`.
For states below `2^32` the JS double computation is exact, so natural-number
arithmetic is faithful. -/
def lcgNext (state : ℕ) : ℕ := (state * 1664525 + 1013904223) % 4294967296

/-- The seeded uniform source: advance the LCG state and return
`currentSeed / 4294967296`. -/
def lcgRand (state : ℕ) : JSNum × ℕ :=
  (fin ((lcgNext state : ℝ) / 4294967296), lcgNext state)

/-- The per-sample `for` loop: run `body` (which consumes random state and
produces one pushed value) `count` times, threading the random state. -/
def sampleLoop {σ : Type} (body : σ → JSNum × σ) : ℕ → σ → List JSNum × σ
  | 0, s => ([], s)
  | Nat.succ k, s =>
      let r := body s
      let rest := sampleLoop body k r.2
      (r.1 :: rest.1, rest.2)

/-- One normal variate by the Box–Muller transform:
`z0 = sqrt(-2 * log(u1)) * cos(2 * PI * u2)`, pushing `mean + stdDev * z0`. -/
def normalBody {σ : Type} (mean stdDev : ℝ) (random : σ → JSNum × σ) (s : σ) : JSNum × σ :=
  let r1 := random s
  let r2 := random r1.2
  let z0 := jsMul (jsSqrt (jsMul (fin (-2)) (jsLog r1.1)))
    (jsCos (jsMul (jsMul (fin 2) (fin Real.pi)) r2.1))
  (jsAdd (fin mean) (jsMul (fin stdDev) z0), r2.2)

/-- One exponential variate: `-log(random()) / lambda`. -/
def exponentialBody {σ : Type} (lambda : ℝ) (random : σ → JSNum × σ) (s : σ) : JSNum × σ :=
  let r := random s
  (jsDiv (jsNeg (jsLog r.1)) (fin lambda), r.2)

/-- The inner trial loop of the binomial case: `n` fresh draws, counting the
draws below `p`. -/
def binomialTrials {σ : Type} (p : ℝ) (random : σ → JSNum × σ) : ℕ → σ → ℕ × σ
  | 0, s => (0, s)
  | Nat.succ j, s =>
      let r := random s
      let rest := binomialTrials p random j r.2
      (rest.1 + (if jsLtB r.1 (fin p) then 1 else 0), rest.2)

/-- One binomial variate: the success count over `n` trials. -/
def binomialBody {σ : Type} (n : ℕ) (p : ℝ) (random : σ → JSNum × σ) (s : σ) : JSNum × σ :=
  let t := binomialTrials p random n s
  (fin ((t.1 : ℕ) : ℝ), t.2)

/-- Running product `p` of the Poisson inverse-transform loop:
`p₀ = exp(-lambda)`, `p_{k+1} = p_k * lambda / (k+1)`. -/
def poissonP (lam : ℝ) : ℕ → ℝ
  | 0 => Real.exp (-lam)
  | Nat.succ k => poissonP lam k * (lam / ((k : ℝ) + 1))

/-- Running cumulative sum `F` of the Poisson loop. -/
def poissonCDF (lam : ℝ) : ℕ → ℝ
  | 0 => poissonP lam 0
  | Nat.succ k => poissonCDF lam k + poissonP lam (Nat.succ k)

/-- The `while (u > F)` loop of the Poisson case: the returned counter is the
least `k` at which the loop guard fails.  When no such `k` exists the JS loop
would not terminate; that case is unreachable for a draw `u < 1` and is
mapped to the junk value `0`. -/
def poissonInvert (lam : ℝ) (u : JSNum) : ℕ :=
  @dite ℕ (∃ k, jsGtB u (fin (poissonCDF lam k)) = false) (Classical.dec _)
    (fun h => Nat.find h) (fun _ => 0)

/-- One Poisson variate: a single fresh uniform draw, inverted through the
running CDF. -/
def poissonBody {σ : Type} (lam : ℝ) (random : σ → JSNum × σ) (s : σ) : JSNum × σ :=
  let r := random s
  (fin ((poissonInvert lam r.1 : ℕ) : ℝ), r.2)

/-- One uniform variate: `min + random() * (max - min)`. -/
def uniformBody {σ : Type} (mn mx : ℝ) (random : σ → JSNum × σ) (s : σ) : JSNum × σ :=
  let r := random s
  (jsAdd (fin mn) (jsMul r.1 (jsSub (fin mx) (fin mn))), r.2)

/-- `generateWithCustomRandom(distribution, params, sampleSize, random)`.
The stateful `random` closure is modelled by explicit state passing.  The TS
type system guarantees the params record matches the distribution tag; a
mismatched pair is unrepresentable at a call site and is mapped to `[]`. -/
def generateWithCustomRandom {σ : Type} (distribution : DistributionType)
    (params : DistParams) (sampleSize : ℕ) (random : σ → JSNum × σ) (s : σ) : List JSNum :=
  match distribution, params with
  | DistributionType.normal, DistParams.normal mean stdDev =>
      (sampleLoop (normalBody mean stdDev random) sampleSize s).1
  | DistributionType.exponential, DistParams.exponential lam =>
      (sampleLoop (exponentialBody lam random) sampleSize s).1
  | DistributionType.binomial, DistParams.binomial n p =>
      (sampleLoop (binomialBody n p random) sampleSize s).1
  | DistributionType.poisson, DistParams.poisson lam =>
      (sampleLoop (poissonBody lam random) sampleSize s).1
  | DistributionType.uniform, DistParams.uniform mn mx =>
      (sampleLoop (uniformBody mn mx random) sampleSize s).1
  | _, _ => []

/-- `generateData(distribution, params, sampleSize, seed?)`.  With a seed the
LCG replaces the uniform source; without one, `Math.random` is modelled by an
arbitrary ambient source `mathRandom` with its state `s`. -/
def generateData {σ : Type} (distribution : DistributionType) (params : DistParams)
    (sampleSize : ℕ) (seed : Option ℕ) (mathRandom : σ → JSNum × σ) (s : σ) : List JSNum :=
  match seed with
  | some sd => generateWithCustomRandom distribution params sampleSize lcgRand sd
  | none => generateWithCustomRandom distribution params sampleSize mathRandom s

/-! ## Statements of the spec's side conditions -/

/-- Parameter validity in the sense of the spec (§3/§4.1): positive `stdDev`
and `lambda`, `min < max`, `p` a probability, positive trial count.  A params
record of the wrong variant for the family is invalid. -/
def validParamsFor : DistributionType → DistParams → Prop
  | DistributionType.normal, DistParams.normal _ sd => 0 < sd
  | DistributionType.exponential, DistParams.exponential lam => 0 < lam
  | DistributionType.binomial, DistParams.binomial n p => 1 ≤ n ∧ 0 ≤ p ∧ p ≤ 1
  | DistributionType.poisson, DistParams.poisson lam => 0 < lam
  | DistributionType.uniform, DistParams.uniform mn mx => mn < mx
  | _, _ => False

/-- The support constraint of each family, as stated by the spec (§8):
poisson and binomial outputs are non-negative integers (binomial at most
`n`), uniform outputs lie in `[min, max)`, exponential outputs are positive,
normal outputs are unconstrained finite reals. -/
def inSupport : DistributionType → DistParams → JSNum → Prop
  | DistributionType.normal, _, v => isFin v
  | DistributionType.exponential, _, v => ∃ x : ℝ, v = fin x ∧ 0 < x
  | DistributionType.binomial, DistParams.binomial n _, v => ∃ k : ℕ, v = fin (k : ℝ) ∧ k ≤ n
  | DistributionType.poisson, _, v => ∃ k : ℕ, v = fin (k : ℝ)
  | DistributionType.uniform, DistParams.uniform mn mx, v => ∃ x : ℝ, v = fin x ∧ mn ≤ x ∧ x < mx
  | _, _, _ => True

/-- Iterative factorial, as described by the spec (`k! = ∏ i, 0! = 1`). -/
def iterFactorial : ℕ → ℕ
  | 0 => 1
  | Nat.succ k => iterFactorial k * (k + 1)

/-- The Poisson log-likelihood formula as the spec states it.
Modelled from the spec: `Σ [ k·ln(lambda) − lambda − ln(k!) ]` with the
factorial computed iteratively (`0! = 1`); this is the value the spec claims
`estimateMLE` reports for the poisson family, for comparison with the
source's actual default of `-Infinity`. -/
def specPoissonLogLikelihood (lam : ℝ) (ks : List ℕ) : ℝ :=
  (ks.map (fun (k : ℕ) => (k : ℝ) * Real.log lam - lam - Real.log (iterFactorial k : ℝ))).sum

/-! ## Computation lemmas for the JavaScript number operations -/

@[simp] theorem jsAdd_fin_fin (a b : ℝ) : jsAdd (fin a) (fin b) = fin (a + b) := rfl

@[simp] theorem jsAdd_nan_left (x : JSNum) : jsAdd nan x = nan := by cases x <;> rfl

@[simp] theorem jsAdd_nan_right (x : JSNum) : jsAdd x nan = nan := by cases x <;> rfl

@[simp] theorem jsNeg_fin (a : ℝ) : jsNeg (fin a) = fin (-a) := rfl

@[simp] theorem jsNeg_negInf : jsNeg negInf = posInf := rfl

@[simp] theorem jsSub_fin_fin (a b : ℝ) : jsSub (fin a) (fin b) = fin (a - b) := rfl

@[simp] theorem jsSub_nan_left (x : JSNum) : jsSub nan x = nan := by cases x <;> rfl

@[simp] theorem jsSub_nan_right (x : JSNum) : jsSub x nan = nan := by cases x <;> rfl

@[simp] theorem jsMul_fin_fin (a b : ℝ) : jsMul (fin a) (fin b) = fin (a * b) := rfl

@[simp] theorem jsMul_nan_left (x : JSNum) : jsMul nan x = nan := by cases x <;> rfl

@[simp] theorem jsMul_nan_right (x : JSNum) : jsMul x nan = nan := by cases x <;> rfl

@[simp] theorem jsDiv_nan_left (x : JSNum) : jsDiv nan x = nan := by cases x <;> rfl

@[simp] theorem jsDiv_nan_right (x : JSNum) : jsDiv x nan = nan := by cases x <;> rfl

@[simp] theorem jsDiv_fin_fin (a b : ℝ) (h : b ≠ 0) : jsDiv (fin a) (fin b) = fin (a / b) := by
  simp [jsDiv, h]

@[simp] theorem jsDiv_zero_zero : jsDiv (fin 0) (fin 0) = nan := by simp [jsDiv]

theorem jsDiv_pos_zero (a : ℝ) (h : 0 < a) : jsDiv (fin a) (fin 0) = posInf := by
  simp [jsDiv, h, h.ne']

@[simp] theorem jsDiv_posInf_fin (b : ℝ) (h : 0 ≤ b) : jsDiv posInf (fin b) = posInf := by
  simp [jsDiv, h]

@[simp] theorem jsPow_fin (a : ℝ) (k : ℕ) : jsPow (fin a) k = fin (a ^ k) := rfl

@[simp] theorem jsPow_nan (k : ℕ) (h : k ≠ 0) : jsPow nan k = nan := by simp [jsPow, h]

@[simp] theorem jsSqrt_fin (a : ℝ) (h : 0 ≤ a) : jsSqrt (fin a) = fin (Real.sqrt a) := by
  simp [jsSqrt, h]

@[simp] theorem jsSqrt_nan : jsSqrt nan = nan := rfl

theorem jsLog_fin_pos (a : ℝ) (h : 0 < a) : jsLog (fin a) = fin (Real.log a) := by
  simp [jsLog, h]

@[simp] theorem jsLog_fin_zero : jsLog (fin 0) = negInf := by simp [jsLog]

@[simp] theorem jsMin2_posInf_fin (a : ℝ) : jsMin2 posInf (fin a) = fin a := rfl

@[simp] theorem jsMin2_fin_fin (a b : ℝ) : jsMin2 (fin a) (fin b) = fin (min a b) := rfl

@[simp] theorem jsMax2_negInf_fin (a : ℝ) : jsMax2 negInf (fin a) = fin a := rfl

@[simp] theorem jsMax2_fin_fin (a b : ℝ) : jsMax2 (fin a) (fin b) = fin (max a b) := rfl

@[simp] theorem jsLeB_fin_fin (x y : ℝ) : jsLeB (fin x) (fin y) = decide (x ≤ y) := rfl

@[simp] theorem jsLtB_fin_fin (x y : ℝ) : jsLtB (fin x) (fin y) = decide (x < y) := rfl

@[simp] theorem getNat_nil (k : ℕ) : getNat [] k = nan := rfl

@[simp] theorem getNat_cons_zero (a : JSNum) (l : List JSNum) : getNat (a :: l) 0 = a := rfl

@[simp] theorem getNat_cons_succ (a : JSNum) (l : List JSNum) (k : ℕ) :
    getNat (a :: l) (k + 1) = getNat l k := rfl

theorem sampleLoop_fst_length {σ : Type} (body : σ → JSNum × σ) (k : ℕ) (s : σ) :
    ((sampleLoop body k s).1).length = k := by
  induction k generalizing s with
  | zero => rfl
  | succ k ih => simp [sampleLoop, ih]

theorem sampleLoop_mem {σ : Type} (body : σ → JSNum × σ) (P : JSNum → Prop)
    (hb : ∀ t, P (body t).1) (k : ℕ) (s : σ) :
    ∀ v ∈ (sampleLoop body k s).1, P v := by
  induction k generalizing s with
  | zero => intro v hv; simp [sampleLoop] at hv
  | succ k ih =>
      intro v hv
      simp only [sampleLoop, List.mem_cons] at hv
      rcases hv with h | h
      · exact h ▸ hb s
      · exact ih _ v h

theorem binomialTrials_fst_le {σ : Type} (p : ℝ) (random : σ → JSNum × σ) (j : ℕ) (s : σ) :
    (binomialTrials p random j s).1 ≤ j := by
  induction j generalizing s with
  | zero => exact Nat.le_refl 0
  | succ j ih =>
      simp only [binomialTrials]
      have h1 : (binomialTrials p random j (random s).2).1 ≤ j := ih _
      have h2 : (if jsLtB (random s).1 (fin p) then 1 else 0) ≤ 1 := by
        split <;> simp
      omega

theorem foldl_jsAdd_map_fin (a : ℝ) (l : List ℝ) :
    List.foldl jsAdd (fin a) (l.map fin) = fin (a + l.sum) := by
  induction l generalizing a with
  | nil => simp
  | cons x l ih => simp [ih, add_assoc]

theorem foldl_jsMax2_map_fin (a : ℝ) (l : List ℝ) :
    List.foldl jsMax2 (fin a) (l.map fin) = fin (l.foldl max a) := by
  induction l generalizing a with
  | nil => rfl
  | cons x l ih => simp [ih]

theorem foldl_jsMax2_negInf (x : ℝ) (l : List ℝ) :
    List.foldl jsMax2 negInf ((x :: l).map fin) = fin (l.foldl max x) := by
  simp only [List.map_cons, List.foldl_cons, jsMax2_negInf_fin]
  exact foldl_jsMax2_map_fin x l

@[simp] theorem jsCos_fin (a : ℝ) : jsCos (fin a) = fin (Real.cos a) := rfl

/-- A uniform source drawing from the open interval `(0, 1)`. -/
def sourceInOpenUnit {σ : Type} (random : σ → JSNum × σ) : Prop :=
  ∀ t : σ, ∃ u : ℝ, (random t).1 = fin u ∧ 0 < u ∧ u < 1

theorem normalBody_isFin {σ : Type} (m sd : ℝ) (random : σ → JSNum × σ)
    (hr : sourceInOpenUnit random) (t : σ) : isFin (normalBody m sd random t).1 := by
  obtain ⟨u1, h1, h10, h11⟩ := hr t
  obtain ⟨u2, h2, h20, h21⟩ := hr (random t).2
  have hlog : Real.log u1 < 0 := Real.log_neg h10 h11
  have hnn : (0 : ℝ) ≤ -2 * Real.log u1 := by nlinarith
  refine ⟨m + sd * (Real.sqrt (-2 * Real.log u1) * Real.cos (2 * Real.pi * u2)), ?_⟩
  simp only [normalBody, h1, h2, jsLog_fin_pos _ h10, jsMul_fin_fin,
    jsSqrt_fin _ hnn, jsCos_fin, jsAdd_fin_fin]

theorem exponentialBody_spec {σ : Type} (lam : ℝ) (random : σ → JSNum × σ)
    (hlam : 0 < lam) (hr : sourceInOpenUnit random) (t : σ) :
    ∃ x : ℝ, (exponentialBody lam random t).1 = fin x ∧ 0 < x := by
  obtain ⟨u, h, h0, h1⟩ := hr t
  have hlog : Real.log u < 0 := Real.log_neg h0 h1
  refine ⟨-Real.log u / lam, ?_, div_pos (by linarith) hlam⟩
  simp only [exponentialBody, h, jsLog_fin_pos _ h0, jsNeg_fin, jsDiv_fin_fin _ _ hlam.ne']

theorem binomialBody_spec {σ : Type} (n : ℕ) (p : ℝ) (random : σ → JSNum × σ) (t : σ) :
    ∃ k : ℕ, (binomialBody n p random t).1 = fin (k : ℝ) ∧ k ≤ n :=
  ⟨_, rfl, binomialTrials_fst_le p random n t⟩

theorem poissonBody_spec {σ : Type} (lam : ℝ) (random : σ → JSNum × σ) (t : σ) :
    ∃ k : ℕ, (poissonBody lam random t).1 = fin (k : ℝ) :=
  ⟨_, rfl⟩

theorem uniformBody_spec {σ : Type} (mn mx : ℝ) (random : σ → JSNum × σ)
    (hlt : mn < mx) (hr : sourceInOpenUnit random) (t : σ) :
    ∃ x : ℝ, (uniformBody mn mx random t).1 = fin x ∧ mn ≤ x ∧ x < mx := by
  obtain ⟨u, h, h0, h1⟩ := hr t
  have hd : 0 < mx - mn := sub_pos.mpr hlt
  refine ⟨mn + u * (mx - mn), ?_, ?_, ?_⟩
  · simp only [uniformBody, h, jsSub_fin_fin, jsMul_fin_fin, jsAdd_fin_fin]
  · nlinarith [mul_pos h0 hd]
  · nlinarith [mul_lt_mul_of_pos_right h1 hd]

theorem gwcr_normal_spec {σ : Type} (m sd : ℝ) (size : ℕ) (random : σ → JSNum × σ) (s : σ)
    (hr : sourceInOpenUnit random) :
    (generateWithCustomRandom DistributionType.normal (DistParams.normal m sd) size random s).length
        = size ∧
      ∀ v ∈ generateWithCustomRandom DistributionType.normal (DistParams.normal m sd) size random s,
        isFin v ∧ inSupport DistributionType.normal (DistParams.normal m sd) v := by
  refine ⟨sampleLoop_fst_length _ _ _, fun v hv => ?_⟩
  have := sampleLoop_mem (normalBody m sd random) isFin (normalBody_isFin m sd random hr) size s v hv
  exact ⟨this, this⟩

theorem gwcr_exponential_spec {σ : Type} (lam : ℝ) (size : ℕ) (random : σ → JSNum × σ) (s : σ)
    (hlam : 0 < lam) (hr : sourceInOpenUnit random) :
    (generateWithCustomRandom DistributionType.exponential (DistParams.exponential lam) size
        random s).length = size ∧
      ∀ v ∈ generateWithCustomRandom DistributionType.exponential (DistParams.exponential lam)
          size random s,
        isFin v ∧ inSupport DistributionType.exponential (DistParams.exponential lam) v := by
  refine ⟨sampleLoop_fst_length _ _ _, fun v hv => ?_⟩
  have := sampleLoop_mem (exponentialBody lam random) (fun v => ∃ x : ℝ, v = fin x ∧ 0 < x)
    (exponentialBody_spec lam random hlam hr) size s v hv
  obtain ⟨x, hx, hpos⟩ := this
  exact ⟨⟨x, hx⟩, ⟨x, hx, hpos⟩⟩

theorem gwcr_binomial_spec {σ : Type} (n : ℕ) (p : ℝ) (size : ℕ) (random : σ → JSNum × σ) (s : σ) :
    (generateWithCustomRandom DistributionType.binomial (DistParams.binomial n p) size
        random s).length = size ∧
      ∀ v ∈ generateWithCustomRandom DistributionType.binomial (DistParams.binomial n p)
          size random s,
        isFin v ∧ inSupport DistributionType.binomial (DistParams.binomial n p) v := by
  refine ⟨sampleLoop_fst_length _ _ _, fun v hv => ?_⟩
  have := sampleLoop_mem (binomialBody n p random) (fun v => ∃ k : ℕ, v = fin (k : ℝ) ∧ k ≤ n)
    (binomialBody_spec n p random) size s v hv
  obtain ⟨k, hk, hle⟩ := this
  exact ⟨⟨_, hk⟩, ⟨k, hk, hle⟩⟩

theorem gwcr_poisson_spec {σ : Type} (lam : ℝ) (size : ℕ) (random : σ → JSNum × σ) (s : σ) :
    (generateWithCustomRandom DistributionType.poisson (DistParams.poisson lam) size
        random s).length = size ∧
      ∀ v ∈ generateWithCustomRandom DistributionType.poisson (DistParams.poisson lam)
          size random s,
        isFin v ∧ inSupport DistributionType.poisson (DistParams.poisson lam) v := by
  refine ⟨sampleLoop_fst_length _ _ _, fun v hv => ?_⟩
  have := sampleLoop_mem (poissonBody lam random) (fun v => ∃ k : ℕ, v = fin (k : ℝ))
    (poissonBody_spec lam random) size s v hv
  obtain ⟨k, hk⟩ := this
  exact ⟨⟨_, hk⟩, ⟨k, hk⟩⟩

theorem gwcr_uniform_spec {σ : Type} (mn mx : ℝ) (size : ℕ) (random : σ → JSNum × σ) (s : σ)
    (hlt : mn < mx) (hr : sourceInOpenUnit random) :
    (generateWithCustomRandom DistributionType.uniform (DistParams.uniform mn mx) size
        random s).length = size ∧
      ∀ v ∈ generateWithCustomRandom DistributionType.uniform (DistParams.uniform mn mx)
          size random s,
        isFin v ∧ inSupport DistributionType.uniform (DistParams.uniform mn mx) v := by
  refine ⟨sampleLoop_fst_length _ _ _, fun v hv => ?_⟩
  have := sampleLoop_mem (uniformBody mn mx random) (fun v => ∃ x : ℝ, v = fin x ∧ mn ≤ x ∧ x < mx)
    (uniformBody_spec mn mx random hlt hr) size s v hv
  obtain ⟨x, hx, hge, hltx⟩ := this
  exact ⟨⟨x, hx⟩, ⟨x, hx, hge, hltx⟩⟩

/-! ## Claims -/

/-- C1, counterexample: on the sample `[2, 3, 2]` the poisson log-likelihood
reported by `estimateMLE` is `-Infinity` (the default branch of
`calculateLogLikelihood`), not the spec's term-by-term sum
`Σ k·ln(7/3) − 7/3 − ln(k!)`, which is a finite real. -/
theorem claim_C1_counterexample :
    (estimateMLE [fin 2, fin 3, fin 2] "poisson" []).logLikelihood = negInf ∧
      (estimateMLE [fin 2, fin 3, fin 2] "poisson" []).logLikelihood ≠
        fin (specPoissonLogLikelihood (7 / 3) [2, 3, 2]) := by
  refine ⟨rfl, fun h => ?_⟩
  have h' : negInf = fin (specPoissonLogLikelihood (7 / 3) [2, 3, 2]) := h
  exact JSNum.noConfusion h'

/-- C1 (amended): `calculateLogLikelihood` implements only the normal and
exponential likelihoods, so for the poisson family `estimateMLE` always
reports `logLikelihood = -Infinity`, for every sample. -/
theorem claim_C1_amended (data : List JSNum) (initialParams : List (String × JSNum)) :
    (estimateMLE data "poisson" initialParams).logLikelihood = negInf := rfl

/-- C2: for the normal, exponential and poisson families the estimated
parameter records of `estimateMLE` and `estimateMoM` on the same non-empty
sample are identical (the two functions compute the same formulas). -/
theorem claim_C2 (data : List JSNum) (p1 p2 : List (String × JSNum)) (h : data ≠ []) :
    (estimateMLE data "normal" p1).estimatedParams =
        (estimateMoM data "normal" p2).estimatedParams ∧
      (estimateMLE data "exponential" p1).estimatedParams =
        (estimateMoM data "exponential" p2).estimatedParams ∧
      (estimateMLE data "poisson" p1).estimatedParams =
        (estimateMoM data "poisson" p2).estimatedParams :=
  ⟨rfl, rfl, rfl⟩

/-- C2, witness: the MLE/MoM agreement evaluated on the concrete sample `[1]`. -/
theorem claim_C2_witness :
    (estimateMLE [fin 1] "normal" []).estimatedParams =
      (estimateMoM [fin 1] "normal" []).estimatedParams :=
  (claim_C2 [fin 1] [] [] (by simp)).1

/-- C3: with a supplied seed, `generateData` is deterministic — two calls
with identical `(family, params, sampleSize, seed)` give identical samples
regardless of the ambient `Math.random` source — and the seeded uniform
source is the linear congruential generator
`state' = (state·1664525 + 1013904223) mod 2^32` with output `state'/2^32`. -/
theorem claim_C3 {σ₁ σ₂ : Type} (mr₁ : σ₁ → JSNum × σ₁) (mr₂ : σ₂ → JSNum × σ₂)
    (s₁ : σ₁) (s₂ : σ₂) (dist : DistributionType) (params : DistParams)
    (sampleSize : ℕ) (seed : ℕ) :
    generateData dist params sampleSize (some seed) mr₁ s₁ =
        generateData dist params sampleSize (some seed) mr₂ s₂ ∧
      (∀ state : ℕ, lcgNext state = (state * 1664525 + 1013904223) % 2 ^ 32) ∧
      ∀ state : ℕ, lcgRand state = (fin ((lcgNext state : ℝ) / 2 ^ 32), lcgNext state) :=
  ⟨rfl, fun state => by norm_num [lcgNext], fun state => by norm_num [lcgRand]⟩

/-- C4, counterexample: the implementation does not resample or clamp a
uniform draw of exactly `0` away from the logarithm: for the exponential
family with valid `lambda = 1`, `sampleSize = 1` and a source returning `0`
(a value in `[0,1)`), the generated sample is `[Infinity]`, which is not a
finite number. -/
theorem claim_C4_counterexample :
    generateWithCustomRandom DistributionType.exponential (DistParams.exponential 1) 1
        (fun _ : Unit => (fin 0, ())) () = [posInf] ∧ ¬ isFin posInf := by
  constructor
  · norm_num [generateWithCustomRandom, sampleLoop, exponentialBody]
  · rintro ⟨x, hx⟩
    exact JSNum.noConfusion hx

/-- C4 (amended): for every valid `(family, params, sampleSize ≥ 1)` and
every uniform source drawing from the open interval `(0, 1)`,
`generateWithCustomRandom` returns exactly `sampleSize` finite numbers, each
in the family's support; a draw of exactly `0` is not clamped and produces a
non-finite value in the logarithm-based families. -/
theorem claim_C4_amended {σ : Type} (random : σ → JSNum × σ) (dist : DistributionType)
    (params : DistParams) (sampleSize : ℕ) (s : σ)
    (hr : sourceInOpenUnit random) (hv : validParamsFor dist params) (hs : 1 ≤ sampleSize) :
    (generateWithCustomRandom dist params sampleSize random s).length = sampleSize ∧
      ∀ v ∈ generateWithCustomRandom dist params sampleSize random s,
        isFin v ∧ inSupport dist params v := by
  cases dist <;> cases params <;> simp only [validParamsFor] at hv
  · exact gwcr_normal_spec _ _ _ _ _ hr
  · exact gwcr_exponential_spec _ _ _ _ hv hr
  · exact gwcr_binomial_spec _ _ _ _ _
  · exact gwcr_poisson_spec _ _ _ _
  · exact gwcr_uniform_spec _ _ _ _ _ hv hr

/-- C4, witness: the amended support theorem instantiated at the uniform
family on `[0, 1)` with a constant source `1/2` and `sampleSize = 1`. -/
theorem claim_C4_witness :
    (generateWithCustomRandom DistributionType.uniform (DistParams.uniform 0 1) 1
        (fun _ : Unit => (fin (1 / 2), ())) ()).length = 1 ∧
      ∀ v ∈ generateWithCustomRandom DistributionType.uniform (DistParams.uniform 0 1) 1
          (fun _ : Unit => (fin (1 / 2), ())) (),
        isFin v ∧ inSupport DistributionType.uniform (DistParams.uniform 0 1) v :=
  claim_C4_amended (fun _ : Unit => (fin (1 / 2), ())) DistributionType.uniform
    (DistParams.uniform 0 1) 1 () (fun _ => ⟨1 / 2, rfl, by norm_num, by norm_num⟩)
    (by norm_num [validParamsFor]) (le_refl 1)

/-- C5, counterexample: `estimateMLE([], 'normal')` does not fail — it
returns an `EstimationResult` whose estimated parameters are the NaN values
produced by the `0/0` mean and variance. -/
theorem claim_C5_counterexample :
    (estimateMLE [] "normal" []).estimatedParams = [("mean", nan), ("stdDev", nan)] := by
  norm_num [estimateMLE]

/-- C5 (amended): neither `estimateMLE` nor `estimateMoM` validates against
an empty sample; on `[]` with the normal family both return a full
`EstimationResult` with NaN parameters and log-likelihood `0` (the empty
fold), rather than raising an `EstimationError` (no such error exists in the
code). -/
theorem claim_C5_amended :
    estimateMLE [] "normal" [] =
        { method := Method.MLE
          estimatedParams := [("mean", nan), ("stdDev", nan)]
          logLikelihood := fin 0 } ∧
      estimateMoM [] "normal" [] =
        { method := Method.MoM
          estimatedParams := [("mean", nan), ("stdDev", nan)]
          logLikelihood := fin 0 } := by
  constructor <;> norm_num [estimateMLE, estimateMoM, calculateLogLikelihood]

/-- C6, counterexample: `generateData` performs no parameter validation: a
uniform request with the invalid range `min = 1 > max = 0` (seed `0`,
`sampleSize = 1`) runs the sampling loop and returns a full one-element
sample instead of failing with a `ValidationError` (no such error exists in
the code). -/
theorem claim_C6_counterexample :
    generateData DistributionType.uniform (DistParams.uniform 1 0) 1 (some 0)
      (fun _ : Unit => (nan, ())) () = [fin (3281063073 / 4294967296)] := by
  norm_num [generateData, generateWithCustomRandom, sampleLoop, uniformBody, lcgRand, lcgNext]

/-- C6 (amended): `generateData` does not validate its parameters; even with
an invalid uniform range (`max ≤ min`) the sampling loop runs and a sample of
exactly `sampleSize` elements is returned, for any seed option and ambient
source. -/
theorem claim_C6_amended {σ : Type} (mn mx : ℝ) (sampleSize : ℕ) (seed : Option ℕ)
    (mathRandom : σ → JSNum × σ) (s : σ) (h : mx ≤ mn) :
    (generateData DistributionType.uniform (DistParams.uniform mn mx) sampleSize seed
        mathRandom s).length = sampleSize := by
  cases seed <;> simp [generateData, generateWithCustomRandom, sampleLoop_fst_length]

/-- C6, witness: the amended theorem evaluated at the invalid range
`min = 1, max = 0` with seed `0` and `sampleSize = 1`. -/
theorem claim_C6_witness :
    (generateData DistributionType.uniform (DistParams.uniform 1 0) 1 (some 0)
        (fun _ : Unit => (nan, ())) ()).length = 1 :=
  claim_C6_amended 1 0 1 (some 0) (fun _ : Unit => (nan, ())) () (by norm_num)

/-- C7, counterexample: `calculateSummaryStats([5])` (n = 1) returns
`variance = NaN` (from the `0/0` of the `n − 1` denominator) instead of
raising an `InsufficientDataError` (no such error exists in the code). -/
theorem claim_C7_counterexample : (calculateSummaryStats [fin 5]).variance = nan := by
  norm_num [calculateSummaryStats]

/-- C7 (amended): on the one-element sample `[5]` the summary statistics are
returned in full, with NaN for variance, standard deviation, skewness and
kurtosis, and with the well-defined fields (mean, median) computed normally;
no error is raised. -/
theorem claim_C7_amended :
    (calculateSummaryStats [fin 5]).variance = nan ∧
      (calculateSummaryStats [fin 5]).standardDeviation = nan ∧
      (calculateSummaryStats [fin 5]).skewness = nan ∧
      (calculateSummaryStats [fin 5]).kurtosis = nan ∧
      (calculateSummaryStats [fin 5]).mean = fin 5 ∧
      (calculateSummaryStats [fin 5]).median = fin 5 := by
  refine ⟨?_, ?_, ?_, ?_, ?_, ?_⟩ <;>
    norm_num [calculateSummaryStats, calculateSkewness, calculateKurtosis,
      calculatePercentile, getIdxInt, sortJS, insertJS, jsDiv_pos_zero]

/-- C8, counterexample: on the sample `[0]` the binomial MLE returns the
trial count `n = max(data) + 1 = 1`, not a fixed count of `10`, and the
success probability `p = 0`, which lies outside the claimed clamp range
`[0.01, 0.99]`. -/
theorem claim_C8_counterexample :
    (estimateMLE [fin 0] "binomial" []).estimatedParams = [("n", fin 1), ("p", fin 0)] ∧
      fin (1 : ℝ) ≠ fin (10 : ℝ) ∧ ¬ ((0.01 : ℝ) ≤ 0) := by
  refine ⟨by norm_num [estimateMLE], by norm_num, by norm_num⟩

/-- C8 (amended): for every non-empty real-valued sample the binomial MLE
estimates the trial count from the data as `n = max(data) + 1` and sets
`p = mean / (max(data) + 1)` with no clamping (the `[0.01, 0.99]` clamp
exists only in the MoM path). -/
theorem claim_C8_amended (x : ℝ) (xs : List ℝ) (ps : List (String × JSNum))
    (hM : List.foldl max x xs + 1 ≠ 0) :
    (estimateMLE ((x :: xs).map fin) "binomial" ps).estimatedParams =
      [("n", fin (List.foldl max x xs + 1)),
       ("p", fin (((x :: xs).sum / ((x :: xs).length : ℝ)) / (List.foldl max x xs + 1)))] := by
  have h1 : ((xs.length : ℝ) + 1) ≠ 0 := by positivity
  norm_num [estimateMLE, List.map_cons, List.foldl_cons, foldl_jsMax2_map_fin,
    foldl_jsAdd_map_fin, jsDiv_fin_fin, hM, h1, List.sum_cons, List.length_cons]

/-- C8, witness: the amended binomial-MLE formula evaluated on the concrete
sample `[0]`. -/
theorem claim_C8_witness :
    (estimateMLE [fin 0] "binomial" []).estimatedParams = [("n", fin 1), ("p", fin 0)] := by
  simpa using claim_C8_amended 0 [] [] (by norm_num)

/-- C9: on the sample `[0, 1, ..., 9]` the uniform MLE returns the sample
minimum `0` and maximum `9`, while the uniform MoM returns
`4.5 ∓ sqrt(3 · 8.25)` computed from the sample mean `4.5` and the biased
(`n`-denominator) variance `8.25`. -/
theorem claim_C9 :
    (estimateMLE [fin 0, fin 1, fin 2, fin 3, fin 4, fin 5, fin 6, fin 7, fin 8, fin 9]
        "uniform" []).estimatedParams = [("min", fin 0), ("max", fin 9)] ∧
      (estimateMoM [fin 0, fin 1, fin 2, fin 3, fin 4, fin 5, fin 6, fin 7, fin 8, fin 9]
        "uniform" []).estimatedParams =
        [("min", fin (4.5 - Real.sqrt (3 * 8.25))),
         ("max", fin (4.5 + Real.sqrt (3 * 8.25)))] := by
  constructor
  · norm_num [estimateMLE, min_def, max_def]
  · rw [Real.sqrt_mul (by norm_num : (0 : ℝ) ≤ 3)]
    norm_num [estimateMoM]

/-- C10: on the sample `[1, 2, 3, 4, 5]`, `calculateSummaryStats` uses the
unbiased `n − 1` variance denominator, giving mean `3`, median `3`, variance
`2.5`, standard deviation `sqrt 2.5 ≈ 1.581`, range `4`, `q1 = 2`, `q3 = 4`
and interquartile range `2` (quartiles by linear-interpolation percentile on
the sorted sample), in contrast to the MLE's biased `n`-denominator variance,
which on the same sample gives `stdDev = sqrt 2`. -/
theorem claim_C10 :
    (calculateSummaryStats [fin 1, fin 2, fin 3, fin 4, fin 5]).mean = fin 3 ∧
      (calculateSummaryStats [fin 1, fin 2, fin 3, fin 4, fin 5]).median = fin 3 ∧
      (calculateSummaryStats [fin 1, fin 2, fin 3, fin 4, fin 5]).variance = fin 2.5 ∧
      (calculateSummaryStats [fin 1, fin 2, fin 3, fin 4, fin 5]).standardDeviation =
        fin (Real.sqrt 2.5) ∧
      (calculateSummaryStats [fin 1, fin 2, fin 3, fin 4, fin 5]).range = fin 4 ∧
      (calculateSummaryStats [fin 1, fin 2, fin 3, fin 4, fin 5]).quartiles.q1 = fin 2 ∧
      (calculateSummaryStats [fin 1, fin 2, fin 3, fin 4, fin 5]).quartiles.q3 = fin 4 ∧
      (calculateSummaryStats [fin 1, fin 2, fin 3, fin 4, fin 5]).interquartileRange = fin 2 ∧
      (estimateMLE [fin 1, fin 2, fin 3, fin 4, fin 5] "normal" []).estimatedParams =
        [("mean", fin 3), ("stdDev", fin (Real.sqrt 2))] := by
  refine ⟨?_, ?_, ?_, ?_, ?_, ?_, ?_, ?_, ?_⟩ <;>
    norm_num [calculateSummaryStats, calculatePercentile, getIdxInt, sortJS, insertJS,
      estimateMLE]
  all_goals simp
  all_goals norm_num

end

end StatWebapp
